import Mathlib

/-!
Verification development for the FractalBackground repository
(src/js/fractal.js, src/js/demo.js, src/unnamed/part_000).

The repository renders a Julia-set fractal with WebGL.  We shallowly embed:

* the fragment-shader escape-time loop (fsSource, fractal.js lines 97-107)
  over exact rationals — the shader's `length(z) > 2.0` test is embedded as
  `4 < normSq z`, which is exactly equivalent for real inputs (the bridging
  lemma `sqrt_gt_two_iff_normSq_gt_four` below proves the equivalence);
* the fragment-shader colouring stage and the `c`-parameter computation
  (fractal.js lines 92-95 and 109-123) over the reals, with `Real.sin`,
  `Real.cos`, `Real.logb 2` and real exponentiation standing in for the
  GLSL built-ins;
* the constructor's configuration resolution (fractal.js lines 26-38),
  including JavaScript truthiness of `||` on numbers and the strict
  `!== false` test;
* the DOM-event-driven mutable state (mouseX/mouseY/canvas size) as a step
  function over an explicit state record (fractal.js lines 40-67);
* the observable effect trace of the constructor/init/startAnimation path
  (console.error reports and drawArrays calls) as a function from an
  abstract GL environment to a list of events (fractal.js lines 12-23,
  47-61, 127-146, 161-188).
-/

/-! ### The escape-time loop (fsSource, fractal.js lines 97-107) -/

/-- `dot(z, z)` for a 2-vector: the squared euclidean length. -/
def normSq (z : ℚ × ℚ) : ℚ := z.1 * z.1 + z.2 * z.2

/-- One iteration of the loop body's update `z ← z² + c`:
`x = (z.x * z.x - z.y * z.y) + c.x`, `y = (2.0 * z.x * z.y) + c.y`
(fractal.js lines 102-104). -/
def fractalStep (c z : ℚ × ℚ) : ℚ × ℚ :=
  ((z.1 * z.1 - z.2 * z.2) + c.1, (2 * z.1 * z.2) + c.2)

/-- The shader's `for` loop (fractal.js lines 101-107): `fuel` iterations
remain; each iteration applies `fractalStep`, breaks with the current
`iter` if `length(z) > 2.0` (equivalently `4 < normSq z`), and otherwise
increments `iter`.  Returns the final `(iter, z)` pair. -/
def fractalLoop (c : ℚ × ℚ) : ℕ → ℚ × ℚ → ℕ → ℕ × (ℚ × ℚ)
  | 0, z, iter => (iter, z)
  | fuel + 1, z, iter =>
    let z' := fractalStep c z
    if 4 < normSq z' then (iter, z')
    else fractalLoop c fuel z' (iter + 1)

/-- The whole loop as run by the shader: `z = uv`, `iter = 0.0`,
`max_iter = 100.0` (fractal.js lines 97-99). -/
def fractalIter (c uv : ℚ × ℚ) : ℕ × (ℚ × ℚ) := fractalLoop c 100 uv 0

/-- For real inputs the shader's escape test `length(z) > 2.0` is exactly
the squared test `4 < dot(z, z)` used in the rational embedding. -/
theorem sqrt_gt_two_iff_normSq_gt_four (x y : ℝ) :
    2 < Real.sqrt (x * x + y * y) ↔ 4 < x * x + y * y := by
  rw [show (4 : ℝ) = 2 ^ 2 by norm_num, ← Real.lt_sqrt (by norm_num)]

/-- If no iterate of the loop body escapes within `fuel` steps, the loop
runs to exhaustion, adding `fuel` to `iter` and applying the step `fuel`
times. -/
theorem fractalLoop_of_not_escape (c : ℚ × ℚ) :
    ∀ (fuel : ℕ) (z : ℚ × ℚ) (iter : ℕ),
      (∀ n < fuel, ¬ 4 < normSq ((fractalStep c)^[n + 1] z)) →
      fractalLoop c fuel z iter = (iter + fuel, (fractalStep c)^[fuel] z) := by
  intro fuel
  induction fuel with
  | zero => intro z iter _; simp [fractalLoop]
  | succ fuel ih =>
    intro z iter h
    have h0 : ¬ 4 < normSq (fractalStep c z) := by
      have := h 0 (Nat.succ_pos fuel)
      simpa using this
    have hrest : ∀ n < fuel, ¬ 4 < normSq ((fractalStep c)^[n + 1] (fractalStep c z)) := by
      intro n hn
      have := h (n + 1) (by omega)
      simpa [Function.iterate_succ_apply] using this
    calc fractalLoop c (fuel + 1) z iter
        = fractalLoop c fuel (fractalStep c z) (iter + 1) := by
          simp [fractalLoop, h0]
      _ = (iter + 1 + fuel, (fractalStep c)^[fuel] (fractalStep c z)) := ih _ _ hrest
      _ = (iter + (fuel + 1), (fractalStep c)^[fuel + 1] z) := by
          rw [Function.iterate_succ_apply]
          congr 1
          omega

/-- If the `(j+1)`-st iterate is the first to escape and `j < fuel`, the
loop stops there: it returns `iter + j` and the escaping iterate. -/
theorem fractalLoop_of_escape (c : ℚ × ℚ) :
    ∀ (fuel : ℕ) (z : ℚ × ℚ) (iter j : ℕ),
      j < fuel →
      4 < normSq ((fractalStep c)^[j + 1] z) →
      (∀ m < j, ¬ 4 < normSq ((fractalStep c)^[m + 1] z)) →
      fractalLoop c fuel z iter = (iter + j, (fractalStep c)^[j + 1] z) := by
  intro fuel
  induction fuel with
  | zero => intro z iter j hj; exact absurd hj (Nat.not_lt_zero j)
  | succ fuel ih =>
    intro z iter j hj hesc hmin
    cases j with
    | zero =>
      have h0 : 4 < normSq (fractalStep c z) := by simpa using hesc
      simp [fractalLoop, h0]
    | succ j =>
      have h0 : ¬ 4 < normSq (fractalStep c z) := by
        have := hmin 0 (Nat.succ_pos j)
        simpa using this
      have hesc' : 4 < normSq ((fractalStep c)^[j + 1] (fractalStep c z)) := by
        simpa [Function.iterate_succ_apply] using hesc
      have hmin' : ∀ m < j, ¬ 4 < normSq ((fractalStep c)^[m + 1] (fractalStep c z)) := by
        intro m hm
        have := hmin (m + 1) (by omega)
        simpa [Function.iterate_succ_apply] using this
      calc fractalLoop c (fuel + 1) z iter
          = fractalLoop c fuel (fractalStep c z) (iter + 1) := by
            simp [fractalLoop, h0]
        _ = (iter + 1 + j, (fractalStep c)^[j + 1] (fractalStep c z)) :=
            ih _ _ j (by omega) hesc' hmin'
        _ = (iter + (j + 1), (fractalStep c)^[j + 1 + 1] z) := by
            rw [Function.iterate_succ_apply]
            congr 1
            omega

/-- C2: for every pixel, the loop iterates `z ← z² + c` from `z = uv` for at
most 100 iterations; the recorded `iter` is at most 100; `iter < 100` exactly
when some iterate among the first 100 satisfies `|z| > 2`; no iterate before
the stopping point escapes; if the pixel escaped, the `(iter+1)`-st iterate is
the escaping one; and the final `z` is the iterate at the stopping point. -/
theorem fractalIter_escape_time (c uv : ℚ × ℚ) :
    (fractalIter c uv).1 ≤ 100 ∧
    ((fractalIter c uv).1 < 100 ↔ ∃ n < 100, 4 < normSq ((fractalStep c)^[n + 1] uv)) ∧
    (∀ m < (fractalIter c uv).1, ¬ 4 < normSq ((fractalStep c)^[m + 1] uv)) ∧
    ((fractalIter c uv).1 < 100 →
      4 < normSq ((fractalStep c)^[(fractalIter c uv).1 + 1] uv)) ∧
    (fractalIter c uv).2 = (fractalStep c)^[min ((fractalIter c uv).1 + 1) 100] uv := by
  by_cases hex : ∃ n, n < 100 ∧ 4 < normSq ((fractalStep c)^[n + 1] uv)
  · set j := Nat.find hex with hj
    obtain ⟨hj100, hjesc⟩ := Nat.find_spec hex
    have hjmin : ∀ m < j, ¬ 4 < normSq ((fractalStep c)^[m + 1] uv) := by
      intro m hm
      have := Nat.find_min hex hm
      intro hesc
      exact this ⟨by omega, hesc⟩
    have hrun : fractalIter c uv = (j, (fractalStep c)^[j + 1] uv) := by
      have := fractalLoop_of_escape c 100 uv 0 j hj100 hjesc hjmin
      simpa [fractalIter] using this
    refine ⟨?_, ?_, ?_, ?_, ?_⟩
    · rw [hrun]; omega
    · rw [hrun]
      exact ⟨fun _ => ⟨j, hj100, hjesc⟩, fun _ => hj100⟩
    · rw [hrun]; exact hjmin
    · rw [hrun]; exact fun _ => hjesc
    · rw [hrun]
      simp only
      rw [min_eq_left (by omega)]
  · push_neg at hex
    have hnone : ∀ n < 100, ¬ 4 < normSq ((fractalStep c)^[n + 1] uv) := by
      intro n hn
      exact not_lt.mpr (hex n hn)
    have hrun : fractalIter c uv = (100, (fractalStep c)^[100] uv) := by
      have := fractalLoop_of_not_escape c 100 uv 0 hnone
      simpa [fractalIter] using this
    refine ⟨?_, ?_, ?_, ?_, ?_⟩
    · rw [hrun]
    · rw [hrun]
      constructor
      · intro h; omega
      · rintro ⟨n, hn, hesc⟩; exact absurd hesc (hnone n hn)
    · rw [hrun]; exact fun m hm => hnone m (by simpa using hm)
    · rw [hrun]; intro h; omega
    · rw [hrun]
      simp only
      rw [min_eq_right (by omega)]

/-- Witness for C2 at `c = (0, 0)`, `uv = (3, 0)`: the first iterate is
`(9, 0)`, which escapes, so the recorded `iter` is below 100 and an escaping
iterate exists. -/
theorem fractalIter_escape_time_witness :
    (fractalIter (0, 0) (3, 0)).1 < 100 ↔
      ∃ n < 100, 4 < normSq ((fractalStep (0, 0))^[n + 1] (3, 0)) :=
  (fractalIter_escape_time (0, 0) (3, 0)).2.1

/-! ### Configuration resolution (fractal.js lines 26-38)

JavaScript semantics embedded:

* `a || d` on a number yields `d` when `a` is absent (`undefined`), `0`, or
  `NaN`; `numOr` models the absent/`0` cases (exact rationals have no `NaN`).
* `a || d` on a supplied array always yields `a` (arrays are truthy), so
  colour options are modelled as `Option` with `Option.getD`.
* `options.interaction?.enabled !== false` is a strict comparison against
  the boolean `false`; every other JavaScript value — absent, `null`, `0`,
  a string, `true` — makes it `true`.  `JSVal` models the value space.
-/

/-- A JavaScript value as far as the `!== false` test can distinguish it. -/
inductive JSVal where
  | undef : JSVal
  | null : JSVal
  | bool : Bool → JSVal
  | num : ℚ → JSVal
  | str : String → JSVal
deriving DecidableEq

/-- `v !== false` for a JavaScript value `v` (fractal.js line 32). -/
def jsStrictNeFalse : JSVal → Bool
  | JSVal.bool false => false
  | _ => true

/-- `x || d` for a JavaScript number `x` that is either absent or an exact
numeric value: `0` is falsy, every other number is truthy
(fractal.js lines 33 and 36). -/
def numOr (x : Option ℚ) (d : ℚ) : ℚ :=
  match x with
  | none => d
  | some v => if v = 0 then d else v

/-- The options object passed to the constructor, restricted to the fields
the constructor reads.  `none` models an absent field (or absent parent
object, which optional chaining `?.` collapses to `undefined`). -/
structure FBOptions where
  colorsStart : Option (ℚ × ℚ × ℚ)
  colorsEnd : Option (ℚ × ℚ × ℚ)
  interactionEnabled : JSVal
  interactionStrength : Option ℚ
  animationSpeed : Option ℚ
deriving DecidableEq

/-- The resolved `this.config` value object. -/
structure FBConfig where
  colorStart : ℚ × ℚ × ℚ
  colorEnd : ℚ × ℚ × ℚ
  interactionEnabled : Bool
  interactionStrength : ℚ
  animationSpeed : ℚ
deriving DecidableEq

/-- `this.config = { ... }` (fractal.js lines 26-38): colours default to
`[0.05, 0.08, 0.12]` and `[0.2, 0.5, 0.55]`; `enabled` is
`options.interaction?.enabled !== false`; `strength` and `speed` use `||`
with defaults `1.5` and `1.0`. -/
def resolveConfig (o : FBOptions) : FBConfig where
  colorStart := o.colorsStart.getD (0.05, 0.08, 0.12)
  colorEnd := o.colorsEnd.getD (0.2, 0.5, 0.55)
  interactionEnabled := jsStrictNeFalse o.interactionEnabled
  interactionStrength := numOr o.interactionStrength 1.5
  animationSpeed := numOr o.animationSpeed 1.0

/-! ### Mutable instance state and DOM events (fractal.js lines 40-67) -/

/-- The mutable fields of a `FractalBackground` instance that the DOM event
handlers and the frame loop touch.  Coordinates and sizes are exact
rationals. -/
structure FBState where
  config : FBConfig
  mouseX : ℚ
  mouseY : ℚ
  canvasWidth : ℚ
  canvasHeight : ℚ
  startTime : ℚ
deriving DecidableEq

/-- The state right after the constructor and `init()`'s initial `resize()`
ran: `mouseX = 0`, `mouseY = 0` (fractal.js lines 40-41), the canvas sized
to the viewport (lines 63-66), and the start marker recorded (line 42). -/
def initState (o : FBOptions) (viewportW viewportH t0 : ℚ) : FBState where
  config := resolveConfig o
  mouseX := 0
  mouseY := 0
  canvasWidth := viewportW
  canvasHeight := viewportH
  startTime := t0

/-- A DOM notification the instance may observe after initialization. -/
inductive DomEvent where
  | mousemove : ℚ → ℚ → DomEvent
  | resize : ℚ → ℚ → DomEvent
deriving DecidableEq

/-- Effect of one DOM notification on the instance state.  The `mousemove`
listener body is `this.mouseX = e.clientX; this.mouseY = this.canvas.height
- e.clientY` and is registered only when `this.config.interaction.enabled`
(fractal.js lines 51-56); the `resize` listener sets the canvas to the
viewport size (lines 49, 63-66). -/
def handleEvent (s : FBState) : DomEvent → FBState
  | DomEvent.mousemove clientX clientY =>
    if s.config.interactionEnabled then
      { s with mouseX := clientX, mouseY := s.canvasHeight - clientY }
    else s
  | DomEvent.resize w h => { s with canvasWidth := w, canvasHeight := h }

/-- The state after a sequence of DOM notifications. -/
def applyEvents (s : FBState) (es : List DomEvent) : FBState :=
  es.foldl handleEvent s

/-- The seven uniform values the frame loop writes each frame
(fractal.js lines 170-183), as a record. -/
structure FrameUniforms where
  u_resolution : ℚ × ℚ
  u_mouse : ℚ × ℚ
  u_time : ℚ
  u_colorStart : ℚ × ℚ × ℚ
  u_colorEnd : ℚ × ℚ × ℚ
  u_speed : ℚ
  u_strength : ℚ
deriving DecidableEq

/-- One execution of the loop body's uniform writes at wall-clock `now`
(fractal.js lines 170-183): `time = (Date.now() - this.startTime) * 0.001`,
resolution and mouse from the instance state, colours and scalars straight
from `this.config`. -/
def frameUniforms (s : FBState) (now : ℚ) : FrameUniforms where
  u_resolution := (s.canvasWidth, s.canvasHeight)
  u_mouse := (s.mouseX, s.mouseY)
  u_time := (now - s.startTime) * 0.001
  u_colorStart := s.config.colorStart
  u_colorEnd := s.config.colorEnd
  u_speed := s.config.animationSpeed
  u_strength := s.config.interactionStrength

/-- DOM notifications never modify the resolved configuration. -/
theorem handleEvent_config (s : FBState) (e : DomEvent) :
    (handleEvent s e).config = s.config := by
  cases e with
  | mousemove x y =>
    by_cases h : s.config.interactionEnabled <;> simp [handleEvent, h]
  | resize w h => simp [handleEvent]

/-- Sequences of DOM notifications never modify the resolved
configuration. -/
theorem applyEvents_config (s : FBState) (es : List DomEvent) :
    (applyEvents s es).config = s.config := by
  induction es generalizing s with
  | nil => rfl
  | cons e es ih =>
    calc (applyEvents s (e :: es)).config
        = (applyEvents (handleEvent s e) es).config := rfl
      _ = (handleEvent s e).config := ih _
      _ = s.config := handleEvent_config s e

/-- C5: with interaction enabled, a pointer-move notification reporting raw
position `(x, y)` leaves the recorded pointer position at
`(x, surfaceHeight - y)`, where `surfaceHeight` is the canvas height at the
time of the notification. -/
theorem mousemove_records_flipped (s : FBState) (x y : ℚ)
    (h : s.config.interactionEnabled = true) :
    (handleEvent s (DomEvent.mousemove x y)).mouseX = x ∧
    (handleEvent s (DomEvent.mousemove x y)).mouseY = s.canvasHeight - y := by
  simp [handleEvent, h]

/-- Witness for C5: a default-configured instance on an 800×600 viewport,
pointer moved to `(100, 40)` — recorded position is `(100, 560)`. -/
theorem mousemove_records_flipped_witness :
    (handleEvent (initState ⟨none, none, JSVal.undef, none, none⟩ 800 600 0)
        (DomEvent.mousemove 100 40)).mouseX = 100 ∧
    (handleEvent (initState ⟨none, none, JSVal.undef, none, none⟩ 800 600 0)
        (DomEvent.mousemove 100 40)).mouseY = 600 - 40 :=
  mousemove_records_flipped
    (initState ⟨none, none, JSVal.undef, none, none⟩ 800 600 0) 100 40 (by decide)

/-- C6: with interaction disabled at construction, no sequence of DOM
notifications ever changes the pointer position: it stays at the
initialized value `(0, 0)`. -/
theorem pointer_frozen_when_disabled (o : FBOptions) (w h t0 : ℚ)
    (hdis : (resolveConfig o).interactionEnabled = false)
    (es : List DomEvent) :
    (applyEvents (initState o w h t0) es).mouseX = 0 ∧
    (applyEvents (initState o w h t0) es).mouseY = 0 := by
  suffices H : ∀ (s : FBState) (es : List DomEvent),
      s.config.interactionEnabled = false →
      (applyEvents s es).mouseX = s.mouseX ∧ (applyEvents s es).mouseY = s.mouseY by
    have := H (initState o w h t0) es (by simpa [initState] using hdis)
    simpa [initState] using this
  intro s es
  induction es generalizing s with
  | nil => intro _; exact ⟨rfl, rfl⟩
  | cons e es ih =>
    intro hs
    have hcfg : (handleEvent s e).config = s.config := handleEvent_config s e
    have hstep : (handleEvent s e).mouseX = s.mouseX ∧ (handleEvent s e).mouseY = s.mouseY := by
      cases e with
      | mousemove x y => simp [handleEvent, hs]
      | resize w h => simp [handleEvent]
    have := ih (handleEvent s e) (by rw [hcfg]; exact hs)
    refine ⟨?_, ?_⟩
    · show (applyEvents (handleEvent s e) es).mouseX = s.mouseX
      rw [this.1, hstep.1]
    · show (applyEvents (handleEvent s e) es).mouseY = s.mouseY
      rw [this.2, hstep.2]

/-- Witness for C6: interaction disabled explicitly; after a pointer move
and a resize the pointer position is still `(0, 0)`. -/
theorem pointer_frozen_when_disabled_witness :
    (applyEvents (initState ⟨none, none, JSVal.bool false, none, none⟩ 800 600 0)
        [DomEvent.mousemove 5 7, DomEvent.resize 30 40]).mouseX = 0 ∧
    (applyEvents (initState ⟨none, none, JSVal.bool false, none, none⟩ 800 600 0)
        [DomEvent.mousemove 5 7, DomEvent.resize 30 40]).mouseY = 0 :=
  pointer_frozen_when_disabled ⟨none, none, JSVal.bool false, none, none⟩ 800 600 0
    (by decide) [DomEvent.mousemove 5 7, DomEvent.resize 30 40]

/-- C7: colours supplied at construction reach the per-pixel program
unchanged: after any sequence of DOM notifications, the frame loop's
uniform writes feed exactly the supplied `colorStart` and `colorEnd`. -/
theorem colors_round_trip (o : FBOptions) (cs ce : ℚ × ℚ × ℚ) (w h t0 now : ℚ)
    (hs : o.colorsStart = some cs) (he : o.colorsEnd = some ce)
    (es : List DomEvent) :
    (frameUniforms (applyEvents (initState o w h t0) es) now).u_colorStart = cs ∧
    (frameUniforms (applyEvents (initState o w h t0) es) now).u_colorEnd = ce := by
  have hcfg : (applyEvents (initState o w h t0) es).config = resolveConfig o := by
    rw [applyEvents_config]
    rfl
  constructor
  · show (applyEvents (initState o w h t0) es).config.colorStart = cs
    rw [hcfg]
    simp [resolveConfig, hs]
  · show (applyEvents (initState o w h t0) es).config.colorEnd = ce
    rw [hcfg]
    simp [resolveConfig, he]

/-- Witness for C7: custom colours `(0.3, 0.1, 0.2)` and `(0.9, 0.8, 0.7)`
survive a pointer move and reach the uniforms unchanged. -/
theorem colors_round_trip_witness :
    (frameUniforms (applyEvents
        (initState ⟨some (0.3, 0.1, 0.2), some (0.9, 0.8, 0.7), JSVal.undef, none, none⟩
          800 600 0) [DomEvent.mousemove 5 7]) 1000).u_colorStart = (0.3, 0.1, 0.2) ∧
    (frameUniforms (applyEvents
        (initState ⟨some (0.3, 0.1, 0.2), some (0.9, 0.8, 0.7), JSVal.undef, none, none⟩
          800 600 0) [DomEvent.mousemove 5 7]) 1000).u_colorEnd = (0.9, 0.8, 0.7) :=
  colors_round_trip ⟨some (0.3, 0.1, 0.2), some (0.9, 0.8, 0.7), JSVal.undef, none, none⟩
    (0.3, 0.1, 0.2) (0.9, 0.8, 0.7) 800 600 0 1000 rfl rfl [DomEvent.mousemove 5 7]

/-- C9: a supplied value of `0` for `animation.speed` or
`interaction.strength` is falsy under `||`, so the resolved configuration
holds the defaults `1.0` and `1.5` rather than `0`. -/
theorem zero_scalar_options_resolve_to_defaults
    (cs ce : Option (ℚ × ℚ × ℚ)) (en : JSVal) :
    (resolveConfig ⟨cs, ce, en, some 0, some 0⟩).animationSpeed = 1.0 ∧
    (resolveConfig ⟨cs, ce, en, some 0, some 0⟩).interactionStrength = 1.5 := by
  constructor <;> simp [resolveConfig, numOr]

/-- C10: the resolved `interactionEnabled` is `true` for every supplied
value except the boolean `false` — absent, `null`, `0`, and strings all
enable interaction. -/
theorem interaction_enabled_unless_strict_false
    (cs ce : Option (ℚ × ℚ × ℚ)) (st sp : Option ℚ) (v : JSVal) :
    (resolveConfig ⟨cs, ce, v, st, sp⟩).interactionEnabled = true ↔
      v ≠ JSVal.bool false := by
  show jsStrictNeFalse v = true ↔ v ≠ JSVal.bool false
  cases v with
  | bool b => cases b <;> simp [jsStrictNeFalse]
  | undef => simp [jsStrictNeFalse]
  | null => simp [jsStrictNeFalse]
  | num q => simp [jsStrictNeFalse]
  | str s => simp [jsStrictNeFalse]

/-! ### Observable effects of construction (fractal.js lines 12-23, 47-61,
127-146, 161-188)

The constructor's failure paths call `console.error` and `return`;
`compileShader` calls `console.error` on a failed compile and returns
`null`.  `createShaders` then calls `attachShader(this.program, vs)` and
`attachShader(this.program, fs)`: in conformant WebGL bindings the
`WebGLShader` parameter is non-nullable, so attaching a `null` shader
throws a `TypeError`; nothing in fractal.js catches it, so after a failed
compile execution aborts inside `createShaders` and never reaches
`createBuffer`/`startAnimation`.  When both shaders compile, the link
status is never queried (`linkOk` is never read), `startAnimation`
invokes `loop()` immediately, and every execution of the loop body issues
one `drawArrays` call.  The abstract GL environment records which of the
host-dependent checks succeed and what diagnostic text
`getShaderInfoLog` would return. -/

/-- An externally observable event during construction and the frame
loop. -/
inductive InitEvent where
  | reportError : String → InitEvent
  | drawCall : InitEvent
deriving DecidableEq

/-- The host environment the constructor runs against: whether
`getElementById` finds the canvas, whether `getContext('webgl')` succeeds,
whether each shader compiles, the driver's info logs, and whether the
program links (fractal.js never checks the latter). -/
structure GLEnv where
  canvasExists : Bool
  webglSupported : Bool
  vsCompileOk : Bool
  fsCompileOk : Bool
  vsLog : String
  fsLog : String
  linkOk : Bool
deriving DecidableEq

/-- The `console.error` message for a missing canvas
(fractal.js line 15). -/
def canvasNotFoundMsg (canvasId : String) : String :=
  "Canvas with id \"" ++ canvasId ++ "\" not found."

/-- Events emitted by one `compileShader` call (fractal.js lines 137-146):
on failure the shader info log is reported; nothing is emitted on
success. -/
def compileShaderTrace (ok : Bool) (log : String) : List InitEvent :=
  if ok then [] else [InitEvent.reportError log]

/-- Events emitted by `createShaders` (fractal.js lines 69-135): both
`compileShader` calls run (and report) before any attach, so both info
logs are emitted even if both compiles fail; the attach/link/use calls
emit no events of their own and the link status is never queried, so
`linkOk` is never read. -/
def createShadersTrace (env : GLEnv) : List InitEvent :=
  compileShaderTrace env.vsCompileOk env.vsLog ++
    compileShaderTrace env.fsCompileOk env.fsLog

/-- Whether `createShaders` runs to completion.  If either `compileShader`
call failed it returned `null`, and the corresponding
`attachShader(this.program, null)` (fractal.js lines 131-132) throws a
`TypeError` — the `WebGLShader` parameter is non-nullable in conformant
bindings — which nothing catches, aborting `init()` right there. -/
def createShadersCompletes (env : GLEnv) : Bool :=
  env.vsCompileOk && env.fsCompileOk

/-- Events emitted by `frames` executions of the animation-loop body: one
`drawArrays` call each (fractal.js lines 170-186). -/
def loopTrace (frames : ℕ) : List InitEvent :=
  List.replicate frames InitEvent.drawCall

/-- The full observable event trace of `new FractalBackground(canvasId,
options)` followed by `frames` executions of the loop body.  The two
constructor guards return early (fractal.js lines 14-23).  Otherwise
`init()` runs `createShaders`; if that aborts with the `TypeError` from
attaching a `null` shader, nothing further executes.  If it completes,
`createBuffer` (no observable events) and `startAnimation` run, and
`loop()` is entered unconditionally — note that `frames ≥ 1` already
during construction, since `startAnimation` calls `loop()` synchronously
(line 187). -/
def constructTrace (env : GLEnv) (canvasId : String) (frames : ℕ) : List InitEvent :=
  if env.canvasExists = false then [InitEvent.reportError (canvasNotFoundMsg canvasId)]
  else if env.webglSupported = false then [InitEvent.reportError "WebGL not supported"]
  else
    createShadersTrace env ++
      (if createShadersCompletes env then loopTrace frames else [])

/-- C8: when the named canvas is absent or no WebGL context is obtainable,
construction reports the failure exactly once and no draw call ever
occurs, however long the system lives. -/
theorem surface_unavailable_no_draw (env : GLEnv) (canvasId : String) (frames : ℕ)
    (h : env.canvasExists = false ∨ env.webglSupported = false) :
    (∃ msg, constructTrace env canvasId frames = [InitEvent.reportError msg]) ∧
    InitEvent.drawCall ∉ constructTrace env canvasId frames := by
  rcases h with h | h
  · refine ⟨⟨canvasNotFoundMsg canvasId, by simp [constructTrace, h]⟩, ?_⟩
    simp [constructTrace, h]
  · by_cases hc : env.canvasExists = false
    · refine ⟨⟨canvasNotFoundMsg canvasId, by simp [constructTrace, hc]⟩, ?_⟩
      simp [constructTrace, hc]
    · refine ⟨⟨"WebGL not supported", by simp [constructTrace, hc, h]⟩, ?_⟩
      simp [constructTrace, hc, h]

/-- Witness for C8: a concrete environment without the canvas — one report,
no draw call even after 7 frames of lifetime. -/
theorem surface_unavailable_no_draw_witness :
    (∃ msg, constructTrace ⟨false, true, true, true, "", "", true⟩ "bg" 7 =
      [InitEvent.reportError msg]) ∧
    InitEvent.drawCall ∉ constructTrace ⟨false, true, true, true, "", "", true⟩ "bg" 7 :=
  surface_unavailable_no_draw ⟨false, true, true, true, "", "", true⟩ "bg" 7 (Or.inl rfl)

/-- A `compileShader` call never issues a draw call. -/
theorem drawCall_not_mem_compileShaderTrace (ok : Bool) (log : String) :
    InitEvent.drawCall ∉ compileShaderTrace ok log := by
  cases ok <;> simp [compileShaderTrace]

/-- C1 counterexample: with both shaders compiling but the program failing
to link, the claim is false at this concrete input — no diagnostic
whatsoever is reported (the link status is never checked), yet a draw
call is issued within the first frame of the lifetime. -/
theorem link_failure_unreported_draws_counterexample :
    (∀ msg, InitEvent.reportError msg ∉
      constructTrace ⟨true, true, true, true, "vs log", "fs log", false⟩ "bg" 1) ∧
    InitEvent.drawCall ∈
      constructTrace ⟨true, true, true, true, "vs log", "fs log", false⟩ "bg" 1 := by
  constructor
  · intro msg
    simp [constructTrace, createShadersTrace, createShadersCompletes,
      compileShaderTrace, loopTrace]
  · simp [constructTrace, createShadersTrace, createShadersCompletes,
      compileShaderTrace, loopTrace]

/-- C1 amended: on a shader compile failure the driver's diagnostic text is
reported and the frame loop never starts — attaching the `null` shader
throws a `TypeError` that aborts `init()`, so no draw call is ever
issued.  A program link failure, however, is never checked: when both
shaders compile, nothing is ever reported regardless of the link outcome,
and the frame loop starts, issuing a draw call every frame. -/
theorem compile_failure_aborts_link_failure_silent (env : GLEnv) (canvasId : String)
    (frames : ℕ) (hc : env.canvasExists = true) (hw : env.webglSupported = true) :
    (env.vsCompileOk = false ∨ env.fsCompileOk = false →
      InitEvent.drawCall ∉ constructTrace env canvasId frames) ∧
    (env.vsCompileOk = false →
      InitEvent.reportError env.vsLog ∈ constructTrace env canvasId frames) ∧
    (env.fsCompileOk = false →
      InitEvent.reportError env.fsLog ∈ constructTrace env canvasId frames) ∧
    (env.vsCompileOk = true → env.fsCompileOk = true →
      (∀ msg, InitEvent.reportError msg ∉ constructTrace env canvasId frames) ∧
      (1 ≤ frames → InitEvent.drawCall ∈ constructTrace env canvasId frames)) := by
  have hun : constructTrace env canvasId frames =
      createShadersTrace env ++
        (if createShadersCompletes env then loopTrace frames else []) := by
    simp [constructTrace, hc, hw]
  refine ⟨?_, ?_, ?_, ?_⟩
  · intro hfail
    have hcomp : createShadersCompletes env = false := by
      rcases hfail with h | h <;> simp [createShadersCompletes, h]
    rw [hun, hcomp]
    simp [createShadersTrace, drawCall_not_mem_compileShaderTrace]
  · intro hvs
    rw [hun]
    simp [createShadersTrace, compileShaderTrace, hvs]
  · intro hfs
    rw [hun]
    simp [createShadersTrace, compileShaderTrace, hfs]
  · intro hvs hfs
    constructor
    · intro msg
      rw [hun]
      simp [createShadersTrace, createShadersCompletes, compileShaderTrace,
        hvs, hfs, loopTrace]
    · intro hframes
      rw [hun]
      rcases Nat.exists_eq_add_of_le hframes with ⟨k, hk⟩
      simp [createShadersTrace, createShadersCompletes, compileShaderTrace,
        hvs, hfs, loopTrace, hk, List.replicate_add]

/-- Witness for C1 (amended claim) at a concrete environment with a failed
fragment-shader compile: the diagnostic is reported and, even 5 frames
into the lifetime, no draw call has occurred. -/
theorem compile_failure_aborts_link_failure_silent_witness :
    (InitEvent.reportError "fs log" ∈
      constructTrace ⟨true, true, true, false, "vs log", "fs log", true⟩ "bg" 5) ∧
    InitEvent.drawCall ∉
      constructTrace ⟨true, true, true, false, "vs log", "fs log", true⟩ "bg" 5 := by
  have h := compile_failure_aborts_link_failure_silent
    ⟨true, true, true, false, "vs log", "fs log", true⟩ "bg" 5 rfl rfl
  exact ⟨h.2.2.1 rfl, h.1 (Or.inr rfl)⟩

/-! ### The colouring stage and the `c` parameter (fsSource, fractal.js
lines 92-95 and 109-123), over the reals

`shadeColor` and `cParam` are transcribed from the shader text;
`shadeColorSpec` and `cParamSpec` are transcribed from the specification's
words (spec.md §4.2 steps 2 and 4) for the refinement theorems. -/

/-- A GLSL `vec3`, over the reals. -/
@[ext]
structure Vec3 where
  x : ℝ
  y : ℝ
  z : ℝ

/-- GLSL `mix(a, b, t) = a * (1 - t) + b * t`, componentwise. -/
noncomputable def glslMix (a b : Vec3) (t : ℝ) : Vec3 where
  x := a.x * (1 - t) + b.x * t
  y := a.y * (1 - t) + b.y * t
  z := a.z * (1 - t) + b.z * t

/-- Modelled from the spec's words: the "linear blend of `colorStart` and
`colorEnd` by factor `glow`". -/
noncomputable def blendSpec (a b : Vec3) (t : ℝ) : Vec3 where
  x := a.x + (b.x - a.x) * t
  y := a.y + (b.y - a.y) * t
  z := a.z + (b.z - a.z) * t

/-- GLSL `mix` is exactly the spec's linear blend. -/
theorem glslMix_eq_blendSpec (a b : Vec3) (t : ℝ) :
    glslMix a b t = blendSpec a b t := by
  unfold glslMix blendSpec
  ext <;> dsimp <;> ring

/-- The colouring stage of the fragment shader (fractal.js lines 109-123):
given the final `iter` and `z` of the loop, produce `(color, alpha)`.
`pow(t, 0.5)` is real exponentiation, `log2` is `Real.logb 2`,
`dot(z, z)` is the squared length. -/
noncomputable def shadeColor (u_colorStart u_colorEnd : Vec3) (u_time iter : ℝ)
    (z : ℝ × ℝ) : Vec3 × ℝ :=
  if iter < 100 then
    let smooth_val := iter - Real.logb 2 (Real.logb 2 (z.1 * z.1 + z.2 * z.2)) + 4
    let t := smooth_val / 100
    let glow := t ^ (0.5 : ℝ) * (0.8 + Real.sin (u_time * 0.5) * 0.2)
    (glslMix u_colorStart u_colorEnd glow, 1)
  else
    (⟨0.01, 0.01, 0.02⟩, 1)

/-- Modelled from the spec's words (spec.md §4.2 steps 4-6): on escape,
`smooth = iter − log2(log2(z·z)) + 4`, `t = smooth/100`,
`glow = t^0.5 · (0.8 + 0.2·sin(0.5·elapsedSeconds))`, colour is the linear
blend by `glow`; otherwise the fixed near-black `(0.01, 0.01, 0.02)`;
full opacity in both cases. -/
noncomputable def shadeColorSpec (colorStart colorEnd : Vec3) (elapsedSeconds iter : ℝ)
    (z : ℝ × ℝ) : Vec3 × ℝ :=
  if iter < 100 then
    let smooth := iter - Real.logb 2 (Real.logb 2 (z.1 * z.1 + z.2 * z.2)) + 4
    let t := smooth / 100
    let glow := t ^ (0.5 : ℝ) * (0.8 + 0.2 * Real.sin (0.5 * elapsedSeconds))
    (blendSpec colorStart colorEnd glow, 1)
  else
    (⟨0.01, 0.01, 0.02⟩, 1)

/-- C3: the shader's colouring stage computes exactly what the spec
describes — blended colour with the smoothed-escape glow when `iter < 100`,
the fixed near-black when not, and full opacity always. -/
theorem shadeColor_eq_spec (cs ce : Vec3) (u_time iter : ℝ) (z : ℝ × ℝ) :
    shadeColor cs ce u_time iter z = shadeColorSpec cs ce u_time iter z := by
  simp only [shadeColor, shadeColorSpec]
  split
  · have hG : ∀ tval : ℝ,
        tval ^ (0.5 : ℝ) * (0.8 + Real.sin (u_time * 0.5) * 0.2) =
          tval ^ (0.5 : ℝ) * (0.8 + 0.2 * Real.sin (0.5 * u_time)) := by
      intro tval
      rw [mul_comm (0.5 : ℝ) u_time]
      ring
    rw [glslMix_eq_blendSpec, hG]
  · rfl

/-- The computation of the complex parameter `c` in the fragment shader
(fractal.js lines 92-95): `time = u_time * u_speed`,
`auto_anim = vec2(sin(time * 0.3) * 0.1, cos(time * 0.2) * 0.1)`,
`mouse_offset = (u_mouse / u_resolution.xy - 0.5) * u_strength`,
`c = vec2(-0.8, 0.156) + auto_anim + mouse_offset`. -/
noncomputable def cParam (u_mouse u_resolution : ℝ × ℝ)
    (u_time u_speed u_strength : ℝ) : ℝ × ℝ :=
  let time := u_time * u_speed
  let auto_anim : ℝ × ℝ := (Real.sin (time * 0.3) * 0.1, Real.cos (time * 0.2) * 0.1)
  let mouse_offset : ℝ × ℝ :=
    ((u_mouse.1 / u_resolution.1 - 0.5) * u_strength,
     (u_mouse.2 / u_resolution.2 - 0.5) * u_strength)
  (-0.8 + auto_anim.1 + mouse_offset.1, 0.156 + auto_anim.2 + mouse_offset.2)

/-- Modelled from the spec's words (spec.md §4.2 step 2):
`c = (-0.8, 0.156) + autoAnim + mouseOffset`,
`autoAnim = (sin(0.3·t)·0.1, cos(0.2·t)·0.1)` with `t = elapsedSeconds ·
speed`, `mouseOffset = (pointer/resolution − 0.5) · strength`. -/
noncomputable def cParamSpec (pointer resolution : ℝ × ℝ)
    (elapsedSeconds speed strength : ℝ) : ℝ × ℝ :=
  let t := elapsedSeconds * speed
  let autoAnim : ℝ × ℝ := (Real.sin (0.3 * t) * 0.1, Real.cos (0.2 * t) * 0.1)
  let mouseOffset : ℝ × ℝ :=
    ((pointer.1 / resolution.1 - 0.5) * strength,
     (pointer.2 / resolution.2 - 0.5) * strength)
  (-0.8 + autoAnim.1 + mouseOffset.1, 0.156 + autoAnim.2 + mouseOffset.2)

/-- C4: for every frame's uniform inputs, the complex parameter computed by
the shader equals the spec's `c = (-0.8, 0.156) + autoAnim + mouseOffset`
with `autoAnim = (sin(0.3·t)·0.1, cos(0.2·t)·0.1)`, `t = elapsedSeconds ·
speed`, and `mouseOffset = (pointer/resolution − 0.5) · strength`. -/
theorem cParam_eq_spec (u_mouse u_resolution : ℝ × ℝ)
    (u_time u_speed u_strength : ℝ) :
    cParam u_mouse u_resolution u_time u_speed u_strength =
      cParamSpec u_mouse u_resolution u_time u_speed u_strength := by
  simp only [cParam, cParamSpec]
  rw [mul_comm (0.3 : ℝ) (u_time * u_speed), mul_comm (0.2 : ℝ) (u_time * u_speed)]
